import Mathlib

/-!
Shallow embedding of the `gitcodes-mcp-test-1` repository: the API client's
status-code handling (`src/api/client.rs`, `src/api/error.rs`), the
cache-fronted resource service (`src/core/service.rs`, `src/core/error.rs`),
and the user/permission model (`src/models/user.rs`, `src/models/resource.rs`).
Timestamps are modelled as integer seconds since the Unix epoch; the HTTP
transport is modelled by passing the response (or the API call's outcome)
as an explicit argument; JSON parsing is modelled by an explicit
`parse : String → Except String α` argument.
-/

namespace GitcodesMcp

/-- Embedding of `ApiError` from `src/api/error.rs`. -/
inductive ApiError where
  | ClientCreationError (msg : String)
  | RequestError (msg : String)
  | ResponseParseError (msg : String)
  | ResourceNotFound
  | Unauthorized
  | Forbidden
  | RateLimitExceeded
  | ServerError (status : Nat) (msg : String)
  | UnsupportedMethod
  | MaxRetriesExceeded
  | NetworkError (msg : String)
  | Timeout
  | ConnectionError (msg : String)
  | Unknown (msg : String)
deriving DecidableEq, Repr

/-- The `Display` rendering of `ApiError` generated by the `#[error(...)]`
attributes in `src/api/error.rs`. -/
def ApiError.display : ApiError → String
  | .ClientCreationError m => "Failed to create API client: " ++ m
  | .RequestError m => "Request error: " ++ m
  | .ResponseParseError m => "Failed to parse API response: " ++ m
  | .ResourceNotFound => "Resource not found"
  | .Unauthorized => "Authentication required"
  | .Forbidden => "Access forbidden"
  | .RateLimitExceeded => "API rate limit exceeded"
  | .ServerError c m => "Server error " ++ toString c ++ ": " ++ m
  | .UnsupportedMethod => "Unsupported HTTP method"
  | .MaxRetriesExceeded => "Maximum retry count exceeded"
  | .NetworkError m => "Network error: " ++ m
  | .Timeout => "Request timed out"
  | .ConnectionError m => "Failed to connect: " ++ m
  | .Unknown m => "Unknown error: " ++ m

/-- An HTTP response as seen by the client code: status code, headers, and
the body text. (`response.json::<T>()` is modelled by applying a `parse`
function to the body text; `response.text()` is the body text itself.) -/
structure HttpResponse where
  status : Nat
  headers : List (String × String)
  body : String
deriving DecidableEq, Repr

/-- Embedding of `ApiResponse<T>` from `src/api/response.rs`
(constructed by `ApiResponse::new(status, headers, body)`). -/
structure ApiResponse (α : Type) where
  status : Nat
  headers : List (String × String)
  body : α
deriving DecidableEq, Repr

/-- Embedding of `ApiClient::process_response` (`src/api/client.rs` lines
162-189): 200/201/202 parse the body (parse failure becomes
`ResponseParseError`), 404/401/403/429 map to their dedicated variants, and
any other status becomes `ServerError` with the status code and body text. -/
def ApiClient.process_response {α : Type} (parse : String → Except String α)
    (response : HttpResponse) : Except ApiError α :=
  if response.status = 200 ∨ response.status = 201 ∨ response.status = 202 then
    match parse response.body with
    | Except.ok body => Except.ok body
    | Except.error e => Except.error (ApiError.ResponseParseError e)
  else if response.status = 404 then Except.error ApiError.ResourceNotFound
  else if response.status = 401 then Except.error ApiError.Unauthorized
  else if response.status = 403 then Except.error ApiError.Forbidden
  else if response.status = 429 then Except.error ApiError.RateLimitExceeded
  else Except.error (ApiError.ServerError response.status response.body)

/-- Embedding of the response-processing tail of `ApiClient::execute`
(`src/api/client.rs` lines 134-158): the same status mapping as
`process_response`, except that a success wraps the parsed body in an
`ApiResponse` together with the response's status and headers. -/
def ApiClient.execute_process {α : Type} (parse : String → Except String α)
    (response : HttpResponse) : Except ApiError (ApiResponse α) :=
  if response.status = 200 ∨ response.status = 201 ∨ response.status = 202 then
    match parse response.body with
    | Except.ok body =>
        Except.ok (ApiResponse.mk response.status response.headers body)
    | Except.error e => Except.error (ApiError.ResponseParseError e)
  else if response.status = 404 then Except.error ApiError.ResourceNotFound
  else if response.status = 401 then Except.error ApiError.Unauthorized
  else if response.status = 403 then Except.error ApiError.Forbidden
  else if response.status = 429 then Except.error ApiError.RateLimitExceeded
  else Except.error (ApiError.ServerError response.status response.body)

/-- Claim C1: every HTTP response processed by the client (both `execute`
and the `process_response` helper used by `get`/`post`) is mapped by status
code: 200/201/202 succeed with the parsed body (or `ResponseParseError` on a
parse failure); 404, 401, 403 and 429 map to `ResourceNotFound`,
`Unauthorized`, `Forbidden` and `RateLimitExceeded` respectively; every
other status maps to `ServerError` carrying the status code and body text.
`execute` performs the identical mapping, wrapping a success in an
`ApiResponse` with the response's status and headers. -/
theorem claim_C1_status_mapping {α : Type} (parse : String → Except String α)
    (r : HttpResponse) :
    (ApiClient.execute_process parse r =
      (ApiClient.process_response parse r).map
        (fun body => ApiResponse.mk r.status r.headers body)) ∧
    (r.status = 200 ∨ r.status = 201 ∨ r.status = 202 →
      (∀ v, parse r.body = Except.ok v →
        ApiClient.process_response parse r = Except.ok v) ∧
      (∀ m, parse r.body = Except.error m →
        ApiClient.process_response parse r =
          Except.error (ApiError.ResponseParseError m))) ∧
    (r.status = 404 →
      ApiClient.process_response parse r = Except.error ApiError.ResourceNotFound) ∧
    (r.status = 401 →
      ApiClient.process_response parse r = Except.error ApiError.Unauthorized) ∧
    (r.status = 403 →
      ApiClient.process_response parse r = Except.error ApiError.Forbidden) ∧
    (r.status = 429 →
      ApiClient.process_response parse r = Except.error ApiError.RateLimitExceeded) ∧
    (r.status ≠ 200 → r.status ≠ 201 → r.status ≠ 202 → r.status ≠ 404 →
      r.status ≠ 401 → r.status ≠ 403 → r.status ≠ 429 →
      ApiClient.process_response parse r =
        Except.error (ApiError.ServerError r.status r.body)) := by
  refine ⟨?_, ?_, ?_, ?_, ?_, ?_, ?_⟩
  · unfold ApiClient.execute_process ApiClient.process_response
    split_ifs <;> try rfl
    cases parse r.body <;> rfl
  · intro h
    constructor
    · intro v hv
      unfold ApiClient.process_response
      rw [if_pos h, hv]
    · intro m hm
      unfold ApiClient.process_response
      rw [if_pos h, hm]
  · intro h
    unfold ApiClient.process_response
    simp [h]
  · intro h
    unfold ApiClient.process_response
    simp [h]
  · intro h
    unfold ApiClient.process_response
    simp [h]
  · intro h
    unfold ApiClient.process_response
    simp [h]
  · intro h1 h2 h3 h4 h5 h6 h7
    unfold ApiClient.process_response
    simp [h1, h2, h3, h4, h5, h6, h7]

/-- A concrete parse function used to exercise the status mapping: it
accepts exactly the body text "1" as the value `1`. -/
def parseOne : String → Except String Nat :=
  fun s => if s = "1" then Except.ok 1 else Except.error "invalid"

/-- Witness for claim C1, exercising every branch of the status mapping at
concrete responses. -/
theorem claim_C1_status_mapping_witness :
    ApiClient.process_response parseOne (HttpResponse.mk 200 [] "1") =
      Except.ok 1 ∧
    ApiClient.process_response parseOne (HttpResponse.mk 201 [] "x") =
      Except.error (ApiError.ResponseParseError "invalid") ∧
    ApiClient.process_response parseOne (HttpResponse.mk 404 [] "") =
      Except.error ApiError.ResourceNotFound ∧
    ApiClient.process_response parseOne (HttpResponse.mk 401 [] "") =
      Except.error ApiError.Unauthorized ∧
    ApiClient.process_response parseOne (HttpResponse.mk 403 [] "") =
      Except.error ApiError.Forbidden ∧
    ApiClient.process_response parseOne (HttpResponse.mk 429 [] "") =
      Except.error ApiError.RateLimitExceeded ∧
    ApiClient.process_response parseOne (HttpResponse.mk 500 [] "oops") =
      Except.error (ApiError.ServerError 500 "oops") := by
  refine ⟨?_, ?_, ?_, ?_, ?_, ?_, ?_⟩
  · exact (claim_C1_status_mapping parseOne (HttpResponse.mk 200 [] "1")).2.1
      (by left; rfl) |>.1 1 (by rfl)
  · exact (claim_C1_status_mapping parseOne (HttpResponse.mk 201 [] "x")).2.1
      (by right; left; rfl) |>.2 "invalid" (by rfl)
  · exact (claim_C1_status_mapping parseOne (HttpResponse.mk 404 [] "")).2.2.1 rfl
  · exact (claim_C1_status_mapping parseOne (HttpResponse.mk 401 [] "")).2.2.2.1 rfl
  · exact (claim_C1_status_mapping parseOne (HttpResponse.mk 403 [] "")).2.2.2.2.1 rfl
  · exact (claim_C1_status_mapping parseOne (HttpResponse.mk 429 [] "")).2.2.2.2.2.1 rfl
  · exact (claim_C1_status_mapping parseOne (HttpResponse.mk 500 [] "oops")).2.2.2.2.2.2
      (by decide) (by decide) (by decide) (by decide) (by decide) (by decide) (by decide)

/-- Embedding of `ResourceType` from `src/models/resource.rs`. -/
inductive ResourceType where
  | Document
  | User
  | Project
  | Settings
  | Media
  | Any
deriving DecidableEq, Repr

/-- Embedding of `ResourceData` from `src/models/resource.rs`; the two
`HashMap<String, String>` fields are modelled as association lists. -/
structure ResourceData where
  name : String
  resource_type : ResourceType
  description : Option String
  data : List (String × String)
  metadata : List (String × String)
deriving DecidableEq, Repr

/-- Embedding of `Resource` from `src/models/resource.rs`; the ISO-8601
timestamp strings are kept as strings. -/
structure Resource where
  id : String
  data : ResourceData
  created_at : String
  updated_at : String
  owner_id : Option String
deriving DecidableEq, Repr

/-- Embedding of `UserRole` from `src/models/user.rs`. -/
inductive UserRole where
  | Admin
  | Manager
  | User
  | ReadOnly
  | Guest
deriving DecidableEq, Repr

/-- Embedding of `Permission` from `src/models/user.rs`. -/
inductive Permission where
  | CreateResource
  | ReadResource
  | UpdateResource
  | DeleteResource
  | ManageUsers
  | ManageSettings
  | ViewReports
  | ExportData
  | ImportData
  | Custom (name : String)
deriving DecidableEq, Repr

/-- Embedding of `User` from `src/models/user.rs`; the
`HashSet<Permission>` of explicit permissions is modelled as a `Finset`. -/
structure User where
  id : String
  email : String
  name : String
  role : UserRole
  permissions : Finset Permission
  enabled : Bool
  email_verified : Bool
  created_at : String
  last_login : Option String

/-- Embedding of `User::has_permission` (`src/models/user.rs` lines
139-147): admins have every permission; otherwise only the explicit
permission set is consulted. -/
def User.has_permission (u : User) (p : Permission) : Bool :=
  if u.role = UserRole.Admin then true
  else decide (p ∈ u.permissions)

/-- Embedding of `User::all_permissions` (`src/models/user.rs` lines
150-195): a clone of the explicit permission set into which the role-based
defaults are inserted one by one. -/
def User.all_permissions (u : User) : Finset Permission :=
  match u.role with
  | UserRole.Admin =>
      insert Permission.ImportData (insert Permission.ExportData
        (insert Permission.ViewReports (insert Permission.ManageSettings
          (insert Permission.ManageUsers (insert Permission.DeleteResource
            (insert Permission.UpdateResource (insert Permission.ReadResource
              (insert Permission.CreateResource u.permissions))))))))
  | UserRole.Manager =>
      insert Permission.ImportData (insert Permission.ExportData
        (insert Permission.ViewReports (insert Permission.DeleteResource
          (insert Permission.UpdateResource (insert Permission.ReadResource
            (insert Permission.CreateResource u.permissions))))))
  | UserRole.User =>
      insert Permission.DeleteResource (insert Permission.UpdateResource
        (insert Permission.ReadResource
          (insert Permission.CreateResource u.permissions)))
  | UserRole.ReadOnly => insert Permission.ReadResource u.permissions
  | UserRole.Guest => insert Permission.ReadResource u.permissions

/-- The fixed per-role default permission set, written out the way the
specification describes it: Admin gets all nine named permissions, Manager
all except `ManageUsers` and `ManageSettings`, User the four resource CRUD
permissions, and ReadOnly and Guest only `ReadResource`. -/
def specRoleDefaultPermissions : UserRole → Finset Permission
  | UserRole.Admin =>
      {Permission.CreateResource, Permission.ReadResource,
       Permission.UpdateResource, Permission.DeleteResource,
       Permission.ManageUsers, Permission.ManageSettings,
       Permission.ViewReports, Permission.ExportData, Permission.ImportData}
  | UserRole.Manager =>
      {Permission.CreateResource, Permission.ReadResource,
       Permission.UpdateResource, Permission.DeleteResource,
       Permission.ViewReports, Permission.ExportData, Permission.ImportData}
  | UserRole.User =>
      {Permission.CreateResource, Permission.ReadResource,
       Permission.UpdateResource, Permission.DeleteResource}
  | UserRole.ReadOnly => {Permission.ReadResource}
  | UserRole.Guest => {Permission.ReadResource}

/-- Claim C4: `User::all_permissions` returns exactly the union of the
user's explicit permission set with the fixed default permission set of the
user's role (Admin: all nine named permissions; Manager: all except
`ManageUsers` and `ManageSettings`; User: the four resource CRUD
permissions; ReadOnly and Guest: only `ReadResource`). -/
theorem claim_C4_all_permissions_union (u : User) :
    u.all_permissions = u.permissions ∪ specRoleDefaultPermissions u.role := by
  cases hr : u.role <;>
    simp only [User.all_permissions, specRoleDefaultPermissions, hr] <;>
    ext p <;>
    simp only [Finset.mem_insert, Finset.mem_union, Finset.mem_singleton] <;>
    tauto

/-- A Manager with an empty explicit permission set, used to show that
role-based default permissions are not consulted by `has_permission`. -/
def managerNoExplicit : User :=
  { id := "u1", email := "manager@example.com", name := "Manager",
    role := UserRole.Manager, permissions := ∅, enabled := true,
    email_verified := false, created_at := "2024-01-01T00:00:00Z",
    last_login := none }

/-- Claim C8: `User::has_permission` returns true exactly when the user's
role is Admin or the queried permission is in the explicit permission set;
role-based defaults of non-Admin roles are not consulted, so a Manager with
an empty explicit set has `ReadResource` in `all_permissions()` yet
`has_permission` reports it false. -/
theorem claim_C8_has_permission_ignores_role_defaults :
    (∀ (u : User) (p : Permission),
      u.has_permission p = true ↔ (u.role = UserRole.Admin ∨ p ∈ u.permissions)) ∧
    Permission.ReadResource ∈ managerNoExplicit.all_permissions ∧
    managerNoExplicit.has_permission Permission.ReadResource = false := by
  refine ⟨?_, ?_, ?_⟩
  · intro u p
    unfold User.has_permission
    split_ifs with h
    · simp [h]
    · simp [h]
  · simp [managerNoExplicit, User.all_permissions]
  · rfl

/-- Embedding of `CoreError` from `src/core/error.rs`. -/
inductive CoreError where
  | General (msg : String)
  | Validation (msg : String)
  | NotFound (msg : String)
  | AlreadyExists (msg : String)
  | PermissionDenied (msg : String)
  | Processing (msg : String)
  | Configuration (msg : String)
  | ExternalService (msg : String)
  | Database (msg : String)
  | Api (e : ApiError)
deriving DecidableEq, Repr

/-- `chrono::Duration::num_minutes`: the total number of whole minutes in a
duration, truncated toward zero (Rust `i64` division). The duration is
modelled in seconds. -/
def chronoNumMinutes (seconds : Int) : Int := seconds.tdiv 60

/-- Embedding of the private `ResourceCache` struct from
`src/core/service.rs`; `last_updated` is in seconds since the Unix epoch. -/
structure ResourceCache where
  resources : List Resource
  last_updated : Int
deriving DecidableEq, Repr

/-- Embedding of `ResourceCache::is_stale` (`src/core/service.rs` lines
51-55): the age in whole minutes must exceed 5. `now` stands for
`chrono::Utc::now()` at the moment of the call. -/
def ResourceCache.is_stale (cache : ResourceCache) (now : Int) : Bool :=
  decide (chronoNumMinutes (now - cache.last_updated) > 5)

/-- Embedding of `ResourceCache::update` (`src/core/service.rs` lines
58-61): replaces the resource list and stamps `last_updated` with the
current time. -/
def ResourceCache.update (_cache : ResourceCache) (now : Int)
    (resources : List Resource) : ResourceCache :=
  { resources := resources, last_updated := now }

/-- Embedding of `ResourceCache::get` (`src/core/service.rs` lines 64-66):
first resource in the cache with the given id. -/
def ResourceCache.get (cache : ResourceCache) (id : String) : Option Resource :=
  cache.resources.find? (fun r => r.id == id)

/-- Embedding of `ResourceService::invalidate_cache` (`src/core/service.rs`
lines 95-101): sets `last_updated` to the Unix epoch. -/
def ResourceService.invalidate_cache (cache : ResourceCache) : ResourceCache :=
  { cache with last_updated := 0 }

/-- Embedding of `ResourceService::validate` (`src/core/service.rs` lines
104-131). `data.name.len()` in Rust is the UTF-8 byte length, modelled with
`String.utf8ByteSize`. -/
def ResourceService.validate (data : ResourceData) : Except CoreError Unit :=
  if data.name = "" then
    Except.error (CoreError.Validation "Resource name cannot be empty")
  else if data.name.utf8ByteSize > 100 then
    Except.error (CoreError.Validation "Resource name too long (max 100 characters)")
  else
    match data.resource_type with
    | ResourceType.Document =>
        if (data.data.lookup "content").isNone then
          Except.error (CoreError.Validation "Document must have content")
        else Except.ok ()
    | ResourceType.User =>
        if (data.data.lookup "email").isNone then
          Except.error (CoreError.Validation "User must have an email")
        else Except.ok ()
    | _ => Except.ok ()

/-- The `map_err` closure of `ResourceService::create`
(`src/core/service.rs` lines 143-147). -/
def createErrMap : ApiError → CoreError
  | ApiError.ResponseParseError msg => CoreError.Processing msg
  | ApiError.Unauthorized =>
      CoreError.PermissionDenied "Not authorized to create resources"
  | e => CoreError.ExternalService ("API error: " ++ e.display)

/-- The `map_err` closure of `ResourceService::get`
(`src/core/service.rs` lines 169-173). -/
def getErrMap (id : String) : ApiError → CoreError
  | ApiError.ResourceNotFound => CoreError.NotFound ("Resource not found: " ++ id)
  | ApiError.Unauthorized =>
      CoreError.PermissionDenied "Not authorized to access this resource"
  | e => CoreError.ExternalService ("API error: " ++ e.display)

/-- The `map_err` closure of `ResourceService::update`
(`src/core/service.rs` lines 190-194). -/
def updateErrMap (id : String) : ApiError → CoreError
  | ApiError.ResourceNotFound => CoreError.NotFound ("Resource not found: " ++ id)
  | ApiError.Unauthorized =>
      CoreError.PermissionDenied "Not authorized to update this resource"
  | e => CoreError.ExternalService ("API error: " ++ e.display)

/-- The `map_err` closure of `ResourceService::delete`
(`src/core/service.rs` lines 206-210). -/
def deleteErrMap (id : String) : ApiError → CoreError
  | ApiError.ResourceNotFound => CoreError.NotFound ("Resource not found: " ++ id)
  | ApiError.Unauthorized =>
      CoreError.PermissionDenied "Not authorized to delete this resource"
  | e => CoreError.ExternalService ("API error: " ++ e.display)

/-- The `map_err` closure of `ResourceService::list`
(`src/core/service.rs` lines 261-264). -/
def listErrMap : ApiError → CoreError
  | ApiError.Unauthorized =>
      CoreError.PermissionDenied "Not authorized to list resources"
  | e => CoreError.ExternalService ("API error: " ++ e.display)

/-- Embedding of `ResourceService::create` (`src/core/service.rs` lines
136-153). The API call's outcome is passed in as `apiResult`; the second
component of the result is the cache state after the operation. -/
def ResourceService.create (apiResult : Except ApiError Resource)
    (resource : Resource) (cache : ResourceCache) :
    Except CoreError Resource × ResourceCache :=
  match ResourceService.validate resource.data with
  | Except.error e => (Except.error e, cache)
  | Except.ok _ =>
      match apiResult with
      | Except.error e => (Except.error (createErrMap e), cache)
      | Except.ok result => (Except.ok result, ResourceService.invalidate_cache cache)

/-- Embedding of `ResourceService::get` (`src/core/service.rs` lines
155-176): the cache is consulted only when it is not stale; on a hit the
cached resource is returned; otherwise the API outcome is returned with its
error translated. The cache is never written. -/
def ResourceService.get (now : Int) (apiResult : Except ApiError Resource)
    (id : String) (cache : ResourceCache) :
    Except CoreError Resource × ResourceCache :=
  if cache.is_stale now then
    (apiResult.mapError (getErrMap id), cache)
  else
    match cache.get id with
    | some resource => (Except.ok resource, cache)
    | none => (apiResult.mapError (getErrMap id), cache)

/-- Embedding of `ResourceService::update` (`src/core/service.rs` lines
178-200): validation first, then the path id must equal the resource's id,
then the API call. -/
def ResourceService.update (apiResult : Except ApiError Resource)
    (id : String) (resource : Resource) (cache : ResourceCache) :
    Except CoreError Resource × ResourceCache :=
  match ResourceService.validate resource.data with
  | Except.error e => (Except.error e, cache)
  | Except.ok _ =>
      if resource.id ≠ id then
        (Except.error (CoreError.Validation "Resource ID mismatch"), cache)
      else
        match apiResult with
        | Except.error e => (Except.error (updateErrMap id e), cache)
        | Except.ok result =>
            (Except.ok result, ResourceService.invalidate_cache cache)

/-- Embedding of `ResourceService::delete` (`src/core/service.rs` lines
202-216). -/
def ResourceService.delete (apiResult : Except ApiError Bool) (id : String)
    (cache : ResourceCache) : Except CoreError Bool × ResourceCache :=
  match apiResult with
  | Except.error e => (Except.error (deleteErrMap id e), cache)
  | Except.ok result => (Except.ok result, ResourceService.invalidate_cache cache)

/-- Rust `str::contains` over the unicode scalar values: `pat` occurs as a
contiguous substring of `s`. -/
def listContainsSub (pat : List Char) : List Char → Bool
  | [] => pat.isEmpty
  | c :: cs => pat.isPrefixOf (c :: cs) || listContainsSub pat cs

/-- `s.contains(pat)` for Rust strings, via the character lists. -/
def strContains (s pat : String) : Bool := listContainsSub pat.toList s.toList

/-- Embedding of `ResourceService::list` (`src/core/service.rs` lines
218-271): a fresh cache answers with client-side filter and limit; a stale
cache is refreshed wholesale from the API outcome. -/
def ResourceService.list (now : Int) (apiResult : Except ApiError (List Resource))
    (limit : Option Nat) (filter : Option String) (cache : ResourceCache) :
    Except CoreError (List Resource) × ResourceCache :=
  if cache.is_stale now then
    match apiResult with
    | Except.error e => (Except.error (listErrMap e), cache)
    | Except.ok result => (Except.ok result, cache.update now result)
  else
    let filtered :=
      match filter with
      | some f => cache.resources.filter (fun r => strContains r.data.name f)
      | none => cache.resources
    let limited :=
      match limit with
      | some l => filtered.take l
      | none => filtered
    (Except.ok limited, cache)

/-- The endpoint string built by `ResourceService::list`
(`src/core/service.rs` lines 243-256). -/
def ResourceService.listEndpoint (limit : Option Nat) (filter : Option String) :
    String :=
  let query_params :=
    (match limit with
      | some l => ["limit=" ++ toString l]
      | none => []) ++
    (match filter with
      | some f => ["filter=" ++ f]
      | none => [])
  if query_params.isEmpty then "resources"
  else "resources" ++ "?" ++ String.intercalate "&" query_params

/-- Claim C2 concerns `ResourceCache::is_stale`. The claim (and the
function's own doc comment, "older than 5 minutes") say an age strictly
greater than 5 minutes — e.g. 5 minutes and 1 second — is stale. The code
computes `age.num_minutes() > 5`, and `num_minutes` truncates, so an age of
301 seconds (5 min 1 s) yields 5 whole minutes and is NOT stale; staleness
only begins at 360 seconds. This theorem evaluates the code at the failing
input 301 s and at the boundaries 300 s and 360 s. -/
theorem claim_C2_staleness_truncates :
    ResourceCache.is_stale (ResourceCache.mk [] 0) 301 = false ∧
    (300 : Int) < 301 ∧
    ResourceCache.is_stale (ResourceCache.mk [] 0) 300 = false ∧
    ResourceCache.is_stale (ResourceCache.mk [] 0) 359 = false ∧
    ResourceCache.is_stale (ResourceCache.mk [] 0) 360 = true := by
  decide

/-- An epoch-stamped cache is stale at any realistic current time: once
`last_updated = 0`, any `now` of at least 360 seconds makes `is_stale`
true. -/
theorem is_stale_of_epoch (rs : List Resource) (now : Int) (h : 360 ≤ now) :
    ResourceCache.is_stale (ResourceCache.mk rs 0) now = true := by
  unfold ResourceCache.is_stale chronoNumMinutes
  simp only [decide_eq_true_eq]
  have h0 : (0 : Int) ≤ now - (ResourceCache.mk rs 0).last_updated := by
    simp only [ResourceCache.mk]
    omega
  rw [Int.tdiv_eq_ediv h0 (by omega)]
  simp only [ResourceCache.mk]
  omega

/-- `create` short-circuits on a validation error. -/
theorem create_validate_error (apiResult : Except ApiError Resource)
    (resource : Resource) (cache : ResourceCache) (e : CoreError)
    (h : ResourceService.validate resource.data = Except.error e) :
    ResourceService.create apiResult resource cache = (Except.error e, cache) := by
  unfold ResourceService.create
  rw [h]

/-- `create` after successful validation: the API outcome decides the
result, and only a success invalidates the cache. -/
theorem create_validate_ok (apiResult : Except ApiError Resource)
    (resource : Resource) (cache : ResourceCache)
    (h : ResourceService.validate resource.data = Except.ok ()) :
    ResourceService.create apiResult resource cache =
      match apiResult with
      | Except.error e => (Except.error (createErrMap e), cache)
      | Except.ok result =>
          (Except.ok result, ResourceService.invalidate_cache cache) := by
  unfold ResourceService.create
  rw [h]

/-- `update` short-circuits on a validation error. -/
theorem update_validate_error (apiResult : Except ApiError Resource)
    (id : String) (resource : Resource) (cache : ResourceCache) (e : CoreError)
    (h : ResourceService.validate resource.data = Except.error e) :
    ResourceService.update apiResult id resource cache = (Except.error e, cache) := by
  unfold ResourceService.update
  rw [h]

/-- `update` after successful validation: the id check, then the API
outcome. -/
theorem update_validate_ok (apiResult : Except ApiError Resource)
    (id : String) (resource : Resource) (cache : ResourceCache)
    (h : ResourceService.validate resource.data = Except.ok ()) :
    ResourceService.update apiResult id resource cache =
      if resource.id ≠ id then
        (Except.error (CoreError.Validation "Resource ID mismatch"), cache)
      else
        match apiResult with
        | Except.error e => (Except.error (updateErrMap id e), cache)
        | Except.ok result =>
            (Except.ok result, ResourceService.invalidate_cache cache) := by
  unfold ResourceService.update
  rw [h]

/-- Claim C3: after every successful create, update or delete the cache is
invalidated: `invalidate_cache` sets `last_updated` to the Unix epoch, the
resulting cache is exactly `invalidate_cache` of the old one, and `is_stale`
subsequently returns true (for any current time at least 6 minutes past the
epoch, which holds for any realistic clock). -/
theorem claim_C3_writes_invalidate_cache (apiRes : Except ApiError Resource)
    (apiBool : Except ApiError Bool) (resource : Resource) (id : String)
    (cache : ResourceCache) (now : Int) (hnow : 360 ≤ now) :
    (ResourceService.invalidate_cache cache).last_updated = 0 ∧
    (∀ r, (ResourceService.create apiRes resource cache).1 = Except.ok r →
      (ResourceService.create apiRes resource cache).2 =
        ResourceService.invalidate_cache cache ∧
      ((ResourceService.create apiRes resource cache).2).is_stale now = true) ∧
    (∀ r, (ResourceService.update apiRes id resource cache).1 = Except.ok r →
      (ResourceService.update apiRes id resource cache).2 =
        ResourceService.invalidate_cache cache ∧
      ((ResourceService.update apiRes id resource cache).2).is_stale now = true) ∧
    (∀ b, (ResourceService.delete apiBool id cache).1 = Except.ok b →
      (ResourceService.delete apiBool id cache).2 =
        ResourceService.invalidate_cache cache ∧
      ((ResourceService.delete apiBool id cache).2).is_stale now = true) := by
  have hstale : (ResourceService.invalidate_cache cache).is_stale now = true := by
    show ResourceCache.is_stale (ResourceCache.mk cache.resources 0) now = true
    exact is_stale_of_epoch cache.resources now hnow
  refine ⟨rfl, ?_, ?_, ?_⟩
  · intro r hr
    cases hv : ResourceService.validate resource.data with
    | error e =>
        rw [create_validate_error apiRes resource cache e hv] at hr
        simp at hr
    | ok u =>
        cases u
        rw [create_validate_ok apiRes resource cache hv] at hr ⊢
        cases apiRes with
        | error e => simp at hr
        | ok res => exact ⟨rfl, hstale⟩
  · intro r hr
    cases hv : ResourceService.validate resource.data with
    | error e =>
        rw [update_validate_error apiRes id resource cache e hv] at hr
        simp at hr
    | ok u =>
        cases u
        rw [update_validate_ok apiRes id resource cache hv] at hr ⊢
        by_cases hid : resource.id ≠ id
        · rw [if_pos hid] at hr; simp at hr
        · rw [if_neg hid] at hr ⊢
          cases apiRes with
          | error e => simp at hr
          | ok res => exact ⟨rfl, hstale⟩
  · intro b hb
    unfold ResourceService.delete at hb ⊢
    cases apiBool with
    | error e => simp at hb
    | ok res => exact ⟨rfl, hstale⟩

/-- Sample resource data that passes validation. -/
def sampleData : ResourceData :=
  { name := "sample", resource_type := ResourceType.Project,
    description := none, data := [], metadata := [] }

/-- A sample resource with id "r1" that passes validation. -/
def sampleResource : Resource :=
  { id := "r1", data := sampleData, created_at := "2024-01-01T00:00:00Z",
    updated_at := "2024-01-01T00:00:00Z", owner_id := none }

/-- An empty cache stamped at time 1000. -/
def cacheAt1000 : ResourceCache := ResourceCache.mk [] 1000

/-- Witness for claim C3 at concrete inputs: a successful create at time
1360 leaves an epoch-stamped cache that is stale. -/
theorem claim_C3_writes_invalidate_cache_witness :
    (ResourceService.create (Except.ok sampleResource) sampleResource cacheAt1000).1 =
      Except.ok sampleResource ∧
    ((ResourceService.create (Except.ok sampleResource) sampleResource cacheAt1000).2 =
      ResourceService.invalidate_cache cacheAt1000 ∧
     ((ResourceService.create (Except.ok sampleResource) sampleResource cacheAt1000).2).is_stale
        1360 = true) := by
  have h := (claim_C3_writes_invalidate_cache (Except.ok sampleResource)
    (Except.ok true) sampleResource "r1" cacheAt1000 1360 (by omega)).2.1
    sampleResource (by rfl)
  exact ⟨by rfl, h⟩

/-- Claim C5: `ResourceService::get` consults the cache only when it is not
stale, returning a cached resource with matching id when present; on a
cache miss or a stale cache it returns the API outcome (with errors
translated); and in every case the cache is left unchanged — neither the
resource list nor the `last_updated` timestamp moves. -/
theorem claim_C5_get_frame (now : Int) (apiResult : Except ApiError Resource)
    (id : String) (cache : ResourceCache) :
    (ResourceService.get now apiResult id cache).2 = cache ∧
    (cache.is_stale now = false → ∀ r, cache.get id = some r →
      ResourceService.get now apiResult id cache = (Except.ok r, cache)) ∧
    (cache.is_stale now = false → cache.get id = none →
      (ResourceService.get now apiResult id cache).1 =
        apiResult.mapError (getErrMap id)) ∧
    (cache.is_stale now = true →
      (ResourceService.get now apiResult id cache).1 =
        apiResult.mapError (getErrMap id)) := by
  refine ⟨?_, ?_, ?_, ?_⟩
  · unfold ResourceService.get
    split_ifs
    · rfl
    · cases cache.get id <;> rfl
  · intro hfresh r hr
    unfold ResourceService.get
    rw [if_neg (by simp [hfresh]), hr]
  · intro hfresh hr
    unfold ResourceService.get
    rw [if_neg (by simp [hfresh]), hr]
  · intro hstale
    unfold ResourceService.get
    rw [if_pos hstale]

/-- A cache holding the sample resource, stamped at time 1000. -/
def cacheWithSample : ResourceCache := ResourceCache.mk [sampleResource] 1000

/-- Witness for claim C5 at concrete inputs: at time 1060 the cache is
fresh and a lookup of "r1" is served from the cache even though the API
outcome is an error; a lookup of "r2" misses and surfaces the translated
API error; at time 1360 the cache is stale and is bypassed. -/
theorem claim_C5_get_frame_witness :
    ResourceService.get 1060 (Except.error ApiError.Timeout) "r1" cacheWithSample =
      (Except.ok sampleResource, cacheWithSample) ∧
    (ResourceService.get 1060 (Except.error ApiError.ResourceNotFound) "r2"
        cacheWithSample).1 =
      Except.error (CoreError.NotFound "Resource not found: r2") ∧
    (ResourceService.get 1360 (Except.ok sampleResource) "r1" cacheWithSample).1 =
      Except.ok sampleResource ∧
    (ResourceService.get 1360 (Except.ok sampleResource) "r1" cacheWithSample).2 =
      cacheWithSample := by
  refine ⟨?_, ?_, ?_, ?_⟩
  · exact (claim_C5_get_frame 1060 (Except.error ApiError.Timeout) "r1"
      cacheWithSample).2.1 (by decide) sampleResource (by rfl)
  · exact ((claim_C5_get_frame 1060 (Except.error ApiError.ResourceNotFound) "r2"
      cacheWithSample).2.2.1 (by decide) (by rfl)).trans (by rfl)
  · exact ((claim_C5_get_frame 1360 (Except.ok sampleResource) "r1"
      cacheWithSample).2.2.2 (by decide)).trans (by rfl)
  · exact (claim_C5_get_frame 1360 (Except.ok sampleResource) "r1"
      cacheWithSample).1

/-- The client-side filtering step of the fresh-cache path of `list`. -/
def filterResources (filter : Option String) (resources : List Resource) :
    List Resource :=
  match filter with
  | some f => resources.filter (fun r => strContains r.data.name f)
  | none => resources

/-- The client-side limiting step of the fresh-cache path of `list`. -/
def limitResources (limit : Option Nat) (resources : List Resource) :
    List Resource :=
  match limit with
  | some l => resources.take l
  | none => resources

/-- The whole client-side answer of the fresh-cache path of `list`:
filter, then limit. -/
def listLocal (limit : Option Nat) (filter : Option String)
    (resources : List Resource) : List Resource :=
  limitResources limit (filterResources filter resources)

/-- A fresh cache makes `list` answer locally, regardless of the API
outcome, and leaves the cache unchanged. -/
theorem list_fresh (now : Int) (a : Except ApiError (List Resource))
    (limit : Option Nat) (filter : Option String) (cache : ResourceCache)
    (hfresh : cache.is_stale now = false) :
    ResourceService.list now a limit filter cache =
      (Except.ok (listLocal limit filter cache.resources), cache) := by
  unfold ResourceService.list
  rw [if_neg (by simp [hfresh])]
  cases filter <;> cases limit <;> rfl

/-- Claim C6: `ResourceService::list` with a stale cache fetches from the
upstream API — the endpoint carries any limit and filter as query
parameters — and overwrites the entire cache with the fetched list,
resetting `last_updated` to the current time. With a fresh cache it answers
from the cache without contacting the API, applying the name-contains
filter and then the limit client-side. -/
theorem claim_C6_list_cache (now : Int) (apiResult : Except ApiError (List Resource))
    (limit : Option Nat) (filter : Option String) (cache : ResourceCache) :
    (cache.is_stale now = true → ∀ result, apiResult = Except.ok result →
      ResourceService.list now apiResult limit filter cache =
        (Except.ok result, ResourceCache.mk result now)) ∧
    (cache.is_stale now = false →
      (∀ a2 : Except ApiError (List Resource),
        ResourceService.list now a2 limit filter cache =
          (Except.ok (listLocal limit filter cache.resources), cache)) ∧
      (∀ r ∈ listLocal limit filter cache.resources, r ∈ cache.resources) ∧
      (∀ f, filter = some f → ∀ r ∈ listLocal limit filter cache.resources,
        strContains r.data.name f = true) ∧
      (∀ n, limit = some n → (listLocal limit filter cache.resources).length ≤ n) ∧
      (limit = none → ∀ f, filter = some f → ∀ r ∈ cache.resources,
        strContains r.data.name f = true →
        r ∈ listLocal limit filter cache.resources) ∧
      (filter = none → ∀ n, limit = some n →
        listLocal limit filter cache.resources = cache.resources.take n) ∧
      (filter = none → limit = none →
        listLocal limit filter cache.resources = cache.resources)) ∧
    ResourceService.listEndpoint none none = "resources" ∧
    (∀ n, ResourceService.listEndpoint (some n) none =
      "resources" ++ "?" ++ ("limit=" ++ toString n)) ∧
    (∀ f, ResourceService.listEndpoint none (some f) =
      "resources" ++ "?" ++ ("filter=" ++ f)) ∧
    (∀ n f, ResourceService.listEndpoint (some n) (some f) =
      "resources" ++ "?" ++ (("limit=" ++ toString n ++ "&") ++ ("filter=" ++ f))) := by
  refine ⟨?_, ?_, ?_, ?_, ?_, ?_⟩
  · intro hstale result hres
    unfold ResourceService.list
    rw [if_pos hstale, hres]
    rfl
  · intro hfresh
    refine ⟨fun a2 => list_fresh now a2 limit filter cache hfresh,
      ?_, ?_, ?_, ?_, ?_, ?_⟩
    · intro r hr
      cases filter with
      | none =>
          cases limit with
          | none => exact hr
          | some n => exact List.take_subset n _ hr
      | some f =>
          cases limit with
          | none => exact (List.mem_filter.mp hr).1
          | some n => exact (List.mem_filter.mp (List.take_subset n _ hr)).1
    · intro f hf r hr
      subst hf
      cases limit with
      | none => exact (List.mem_filter.mp hr).2
      | some n => exact (List.mem_filter.mp (List.take_subset n _ hr)).2
    · intro n hn
      subst hn
      cases filter <;> exact List.length_take_le n _
    · intro hlim f hf r hr hc
      subst hlim hf
      exact List.mem_filter.mpr ⟨hr, hc⟩
    · intro hf n hn
      subst hf hn
      rfl
    · intro hf hn
      subst hf hn
      rfl
  · rfl
  · intro n
    rfl
  · intro f
    rfl
  · intro n f
    rfl

/-- Witness for claim C6: at time 1360 the cache is stale and is replaced
wholesale by the API result; at time 1060 it is fresh and answers locally. -/
theorem claim_C6_list_cache_witness :
    ResourceService.list 1360 (Except.ok []) none none cacheWithSample =
      (Except.ok [], ResourceCache.mk [] 1360) ∧
    ResourceService.list 1060 (Except.error ApiError.Timeout) none none
        cacheWithSample =
      (Except.ok (listLocal none none cacheWithSample.resources), cacheWithSample) ∧
    ResourceService.listEndpoint (some 7) (some "abc") =
      "resources" ++ "?" ++ (("limit=" ++ toString 7 ++ "&") ++ ("filter=" ++ "abc")) := by
  refine ⟨?_, ?_, ?_⟩
  · exact (claim_C6_list_cache 1360 (Except.ok []) none none cacheWithSample).1
      (by decide) [] rfl
  · exact ((claim_C6_list_cache 1060 (Except.error ApiError.Timeout) none none
      cacheWithSample).2.1 (by decide)).1 (Except.error ApiError.Timeout)
  · exact (claim_C6_list_cache 0 (Except.ok []) none none
      cacheWithSample).2.2.2.2.2 7 "abc"

/-- Claim C7: for `get`, `update` and `delete`, an API `ResourceNotFound`
(a 404) becomes `CoreError::NotFound`, `Unauthorized` becomes
`CoreError::PermissionDenied`, and every other API error becomes
`CoreError::ExternalService`; the error is translated and returned directly
— no retry or recovery (whenever the API path is taken with an error
outcome, that translated error is the operation's result and the cache is
untouched). -/
theorem claim_C7_error_translation (id : String) :
    (getErrMap id ApiError.ResourceNotFound =
        CoreError.NotFound ("Resource not found: " ++ id) ∧
      getErrMap id ApiError.Unauthorized =
        CoreError.PermissionDenied "Not authorized to access this resource" ∧
      ∀ e, e ≠ ApiError.ResourceNotFound → e ≠ ApiError.Unauthorized →
        ∃ m, getErrMap id e = CoreError.ExternalService m) ∧
    (updateErrMap id ApiError.ResourceNotFound =
        CoreError.NotFound ("Resource not found: " ++ id) ∧
      updateErrMap id ApiError.Unauthorized =
        CoreError.PermissionDenied "Not authorized to update this resource" ∧
      ∀ e, e ≠ ApiError.ResourceNotFound → e ≠ ApiError.Unauthorized →
        ∃ m, updateErrMap id e = CoreError.ExternalService m) ∧
    (deleteErrMap id ApiError.ResourceNotFound =
        CoreError.NotFound ("Resource not found: " ++ id) ∧
      deleteErrMap id ApiError.Unauthorized =
        CoreError.PermissionDenied "Not authorized to delete this resource" ∧
      ∀ e, e ≠ ApiError.ResourceNotFound → e ≠ ApiError.Unauthorized →
        ∃ m, deleteErrMap id e = CoreError.ExternalService m) ∧
    (∀ now cache e, ResourceCache.is_stale cache now = true →
      ResourceService.get now (Except.error e) id cache =
        (Except.error (getErrMap id e), cache)) ∧
    (∀ resource cache e,
      ResourceService.validate resource.data = Except.ok () → resource.id = id →
      ResourceService.update (Except.error e) id resource cache =
        (Except.error (updateErrMap id e), cache)) ∧
    (∀ cache e, ResourceService.delete (Except.error e) id cache =
      (Except.error (deleteErrMap id e), cache)) := by
  refine ⟨⟨rfl, rfl, ?_⟩, ⟨rfl, rfl, ?_⟩, ⟨rfl, rfl, ?_⟩, ?_, ?_, ?_⟩
  · intro e h1 h2
    cases e <;> first
      | exact absurd rfl h1
      | exact absurd rfl h2
      | exact ⟨_, rfl⟩
  · intro e h1 h2
    cases e <;> first
      | exact absurd rfl h1
      | exact absurd rfl h2
      | exact ⟨_, rfl⟩
  · intro e h1 h2
    cases e <;> first
      | exact absurd rfl h1
      | exact absurd rfl h2
      | exact ⟨_, rfl⟩
  · intro now cache e hstale
    unfold ResourceService.get
    rw [if_pos hstale]
    rfl
  · intro resource cache e hval hid
    rw [update_validate_ok (Except.error e) id resource cache hval]
    rw [if_neg (by simp [hid])]
  · intro cache e
    rfl

/-- Witness for claim C7: a concrete `Forbidden` error surfacing through a
stale-cache `get`, and a 404 through `delete`. -/
theorem claim_C7_error_translation_witness :
    (∃ m, getErrMap "r9" ApiError.Forbidden = CoreError.ExternalService m) ∧
    ResourceService.get 1360 (Except.error ApiError.Forbidden) "r9" cacheWithSample =
      (Except.error (getErrMap "r9" ApiError.Forbidden), cacheWithSample) ∧
    ResourceService.delete (Except.error ApiError.ResourceNotFound) "r9" cacheWithSample =
      (Except.error (CoreError.NotFound ("Resource not found: " ++ "r9")),
        cacheWithSample) := by
  refine ⟨?_, ?_, ?_⟩
  · exact (claim_C7_error_translation "r9").1.2.2 ApiError.Forbidden
      (by decide) (by decide)
  · exact (claim_C7_error_translation "r9").2.2.2.1 1360 cacheWithSample
      ApiError.Forbidden (by decide)
  · have h := (claim_C7_error_translation "r9").2.2.2.2.2 cacheWithSample
      ApiError.ResourceNotFound
    rw [h]
    rfl

/-- A string has at least as many UTF-8 bytes as characters, since every
character encodes to at least one byte. Hence a name longer than 100
characters is also longer than 100 bytes, the quantity Rust's
`String::len` measures. -/
theorem length_le_utf8ByteSize (s : String) : s.length ≤ s.utf8ByteSize := by
  cases s with
  | mk cs =>
      simp only [String.utf8ByteSize_mk]
      show cs.length ≤ String.utf8Len cs
      induction cs with
      | nil => simp
      | cons c cs ih =>
          have hc := c.utf8Size_pos
          simp only [List.length_cons, String.utf8Len_cons]
          omega

/-- Claim C9: for every resource whose data fails validation (empty name,
name longer than 100 characters, a Document without a "content" data key,
or a User without an "email" data key), `create` and `update` return a
`CoreError::Validation` error without any API call — the result is the same
for every API outcome — and the cache (resource list and `last_updated`)
is unchanged. -/
theorem claim_C9_invalid_data_rejected (resource : Resource) (cache : ResourceCache)
    (h : resource.data.name = "" ∨ 100 < resource.data.name.length ∨
      (resource.data.resource_type = ResourceType.Document ∧
        resource.data.data.lookup "content" = none) ∨
      (resource.data.resource_type = ResourceType.User ∧
        resource.data.data.lookup "email" = none)) :
    ∃ msg,
      (∀ apiResult, ResourceService.create apiResult resource cache =
        (Except.error (CoreError.Validation msg), cache)) ∧
      (∀ apiResult id, ResourceService.update apiResult id resource cache =
        (Except.error (CoreError.Validation msg), cache)) := by
  have hv : ∃ msg, ResourceService.validate resource.data =
      Except.error (CoreError.Validation msg) := by
    by_cases hne : resource.data.name = ""
    · exact ⟨_, by unfold ResourceService.validate; rw [if_pos hne]⟩
    · by_cases hb : resource.data.name.utf8ByteSize > 100
      · exact ⟨_, by unfold ResourceService.validate; rw [if_neg hne, if_pos hb]⟩
      · rcases h with h | h | ⟨ht, hl⟩ | ⟨ht, hl⟩
        · exact absurd h hne
        · exact absurd (lt_of_lt_of_le h (length_le_utf8ByteSize _)) hb
        · refine ⟨"Document must have content", ?_⟩
          unfold ResourceService.validate
          rw [if_neg hne, if_neg hb, ht]
          simp [hl]
        · refine ⟨"User must have an email", ?_⟩
          unfold ResourceService.validate
          rw [if_neg hne, if_neg hb, ht]
          simp [hl]
  obtain ⟨msg, hv⟩ := hv
  refine ⟨msg, ?_, ?_⟩
  · intro apiResult
    exact create_validate_error apiResult resource cache _ hv
  · intro apiResult id
    exact update_validate_error apiResult id resource cache _ hv

/-- Resource data with an empty name, which fails validation. -/
def emptyNameData : ResourceData :=
  { name := "", resource_type := ResourceType.Project, description := none,
    data := [], metadata := [] }

/-- A resource with an empty name and id "r0". -/
def emptyNameResource : Resource :=
  { id := "r0", data := emptyNameData, created_at := "2024-01-01T00:00:00Z",
    updated_at := "2024-01-01T00:00:00Z", owner_id := none }

/-- An empty cache stamped at time 1000, for concrete runs. -/
def emptyCache : ResourceCache := ResourceCache.mk [] 1000

/-- Witness for claim C9 at a concrete invalid resource (empty name). -/
theorem claim_C9_invalid_data_rejected_witness :
    emptyNameResource.data.name = "" ∧
    ∃ msg,
      (∀ apiResult, ResourceService.create apiResult emptyNameResource emptyCache =
        (Except.error (CoreError.Validation msg), emptyCache)) ∧
      (∀ apiResult id, ResourceService.update apiResult id emptyNameResource emptyCache =
        (Except.error (CoreError.Validation msg), emptyCache)) :=
  ⟨rfl, claim_C9_invalid_data_rejected emptyNameResource emptyCache (Or.inl rfl)⟩

/-- Counterexample to claim C10 as stated: `update` runs `validate` before
the path-id check, so for a resource that both fails validation and has a
mismatched id — here an empty-named resource with id "r0" against path id
"b" — the returned error is the validation error "Resource name cannot be
empty", not "Resource ID mismatch". -/
theorem claim_C10_counterexample :
    emptyNameResource.id ≠ "b" ∧
    (ResourceService.update (Except.ok sampleResource) "b" emptyNameResource
        emptyCache).1 =
      Except.error (CoreError.Validation "Resource name cannot be empty") ∧
    (ResourceService.update (Except.ok sampleResource) "b" emptyNameResource
        emptyCache).1 ≠
      Except.error (CoreError.Validation "Resource ID mismatch") := by
  refine ⟨by decide, rfl, ?_⟩
  intro hcontra
  have h1 : (ResourceService.update (Except.ok sampleResource) "b"
      emptyNameResource emptyCache).1 =
      Except.error (CoreError.Validation "Resource name cannot be empty") := rfl
  rw [h1] at hcontra
  injection hcontra with h2
  injection h2 with h3
  exact absurd h3 (by decide)

/-- Claim C10 (amended): for every path id and every resource whose data
passes validation and whose id field differs from that path id,
`ResourceService::update` returns `CoreError::Validation("Resource ID
mismatch")` without making an API call — the result is the same for every
API outcome — and without modifying the cache. -/
theorem claim_C10_id_mismatch (apiResult : Except ApiError Resource) (id : String)
    (resource : Resource) (cache : ResourceCache)
    (hval : ResourceService.validate resource.data = Except.ok ())
    (hid : resource.id ≠ id) :
    ResourceService.update apiResult id resource cache =
      (Except.error (CoreError.Validation "Resource ID mismatch"), cache) := by
  rw [update_validate_ok apiResult id resource cache hval]
  rw [if_pos hid]

/-- Witness for the amended claim C10: a valid resource with id "r1"
updated under path id "b". -/
theorem claim_C10_id_mismatch_witness :
    ResourceService.validate sampleResource.data = Except.ok () ∧
    sampleResource.id ≠ "b" ∧
    ResourceService.update (Except.error ApiError.Timeout) "b" sampleResource
        emptyCache =
      (Except.error (CoreError.Validation "Resource ID mismatch"), emptyCache) :=
  ⟨rfl, by decide,
    claim_C10_id_mismatch (Except.error ApiError.Timeout) "b" sampleResource
      emptyCache rfl (by decide)⟩

end GitcodesMcp
